import Mathlib

/-!
Verification development for simex_platform.

Part 1 embeds `GAPDPhotonDiffractorParameters`
(src/Sources/python/SimEx/Parameters/GAPDPhotonDiffractorParameters.py) as a shallow
embedding: the object's private attribute store is an explicit record, each Python
property setter/getter becomes a function on that record, and Python exceptions become
an explicit error type.  An attribute slot of `Option PyVal` value `Option.none` means
the attribute was never written (reading it raises `AttributeError`), while
`some PyVal.none` means the attribute holds the Python value `None`.

Part 2 models the Esther experiment versioning engine, whose implementation
(`EstherExperimentConstruction`, `EstherPhotonMatterInteractorParameters`) is not part
of the sources here (only its unit test is); it is modelled from the specification.
-/

namespace SimexSpec

/-- Python runtime values that flow through the embedded code.  List/tuple contents are
never inspected by the embedded code (only their type is checked), so they carry no
payload.  `detectorGeometry` and `photonBeamParameters` are the opaque collaborator
objects; a `detectorGeometry` remembers the filename it was loaded from, if any. -/
inductive PyVal where
  | none
  | bool (b : Bool)
  | int (n : Int)
  | str (s : String)
  | list
  | tuple
  | detectorGeometry (filename : Option String)
  | photonBeamParameters
deriving DecidableEq, Repr

/-- Python exception kinds raised by the embedded code. -/
inductive PyError where
  | typeError (msg : String)
  | valueError (msg : String)
  | keyError (key : String)
  | attributeError (name : String)
  | ioError (msg : String)
deriving DecidableEq, Repr

/-- The `isinstance` type tags used by the embedded code. -/
inductive PyType where
  | bool
  | int
  | str
  | list
  | tuple
  | detectorGeometry
  | photonBeamParameters
deriving DecidableEq, Repr

/-- Python `isinstance`.  Note that Python `bool` is a subclass of `int`, so a boolean
is an instance of `int`. -/
def isInstance : PyVal → PyType → Bool
  | PyVal.bool _, PyType.bool => true
  | PyVal.bool _, PyType.int => true
  | PyVal.int _, PyType.int => true
  | PyVal.str _, PyType.str => true
  | PyVal.list, PyType.list => true
  | PyVal.tuple, PyType.tuple => true
  | PyVal.detectorGeometry _, PyType.detectorGeometry => true
  | PyVal.photonBeamParameters, PyType.photonBeamParameters => true
  | _, _ => false

/-- Modelled from the spec: `checkAndSetInstance` (imported from
`SimEx.Utilities.EntityChecks`, not under the sources here).  Spec section 4.1: if the
raw value is `None`, return the default unchanged (the default is trusted); else if the
value is an instance of one of the expected types, return it as-is; otherwise fail with
a type-mismatch error.  No coercion is performed. -/
def checkAndSetInstance (expected : List PyType) (value : PyVal) (default : PyVal) :
    Except PyError PyVal :=
  if value = PyVal.none then Except.ok default
  else if expected.any (fun t => isInstance value t) then Except.ok value
  else Except.error (PyError.typeError "TypeMismatch: value is not of the expected type.")

/-- Python `x == True` for the values of this model (`True == 1` in Python). -/
def pyEqTrue : PyVal → Bool
  | PyVal.bool b => b
  | PyVal.int n => n = 1
  | _ => false

/-- The private attribute store of a `GAPDPhotonDiffractorParameters` instance.  Each
field is one name-mangled attribute (`_GAPDPhotonDiffractorParameters__<field>`);
`Option.none` means the attribute does not exist on the instance.  `sample_rotation_slot`
stands for `__sample_rotation`, which is read by the rotation setters but is never
written anywhere in the class (the `sample_rotation` property writes
`__uniform_rotation` instead).  `warnings` collects the texts of emitted warnings and
warning prints, in order. -/
structure GAPDState where
  sample : Option PyVal
  sample_rotation_slot : Option PyVal
  rotation_quaternion_slot : Option PyVal
  uniform_rotation_slot : Option PyVal
  calculate_Compton : Option PyVal
  number_of_slices : Option PyVal
  slice_interval : Option PyVal
  pmi_start_ID : Option PyVal
  pmi_stop_ID : Option PyVal
  beam_parameters : Option PyVal
  detector_geometry : Option PyVal
  number_of_diffraction_patterns : Option PyVal
  warnings : List String
deriving DecidableEq, Repr

/-- A freshly allocated instance, before `__init__` runs: no attribute exists. -/
def initState : GAPDState :=
  { sample := Option.none
    sample_rotation_slot := Option.none
    rotation_quaternion_slot := Option.none
    uniform_rotation_slot := Option.none
    calculate_Compton := Option.none
    number_of_slices := Option.none
    slice_interval := Option.none
    pmi_start_ID := Option.none
    pmi_stop_ID := Option.none
    beam_parameters := Option.none
    detector_geometry := Option.none
    number_of_diffraction_patterns := Option.none
    warnings := [] }

/-- Reading an instance attribute: a missing attribute raises `AttributeError`. -/
def getAttr (slot : Option PyVal) (name : String) : Except PyError PyVal :=
  match slot with
  | some v => Except.ok v
  | Option.none => Except.error (PyError.attributeError name)

def srAttrName : String := "_GAPDPhotonDiffractorParameters__sample_rotation"

def urAttrName : String := "_GAPDPhotonDiffractorParameters__uniform_rotation"

def rqAttrName : String := "_GAPDPhotonDiffractorParameters__rotation_quaternion"

def rqGateMsg : String :=
  "rotation_quaternion is not set since sample_rotation is not True."

def urGateMsg : String :=
  "uniform_rotation is not set since sample_rotation is not True."

def rqOverrideWarn : String :=
  "uniform_rotation will be overrided by rotation_quaternion"

def urOverrideWarn : String :=
  "rotation_quaternion will be overrided by uniform_rotation"

def sliceIntervalMsg : String :=
  "The parameter slice_interval must be a positive integer."

def pmiStartMsg : String :=
  "The parameters pmi_start_ID must be a positive integer."

def pmiStopMsg : String :=
  "The parameters pmi_stop_ID must be a positive integer."

def ndpMsg : String :=
  "The parameters number_of_diffraction_patterns must be a positive integer."

def beamNotFileMsg (p : String) : String :=
  "The beam_parameters " ++ p ++ " is not a valid file or filename."

def beamUnsupportedMsg : String :=
  "Passing beam parameters as a file is currently unsupported. Please use the PhotonBeamParameters class."

def geometryNotFileMsg (p : String) : String :=
  "The parameter detector_geometry " ++ p ++ " is not a valid file or filename."

def geometryWarn : String :=
  "WARNING: Geometry not set, calculation will most probably fail."

/-- `sample.setter` (source lines 141-149): `None` is allowed; otherwise the value is
type-checked against `str` and stored.  No file-existence check is performed. -/
def set_sample (s : GAPDState) (value : PyVal) : Except PyError GAPDState :=
  if value = PyVal.none then Except.ok { s with sample := some PyVal.none }
  else do
    let v ← checkAndSetInstance [PyType.str] value PyVal.none
    Except.ok { s with sample := some v }

/-- `sample_rotation.setter` (source lines 156-165): writes `__uniform_rotation`, not a
`__sample_rotation` attribute. -/
def set_sample_rotation (s : GAPDState) (value : PyVal) : Except PyError GAPDState :=
  if value = PyVal.none then
    Except.ok { s with uniform_rotation_slot := some PyVal.none }
  else do
    let v ← checkAndSetInstance [PyType.bool] value (PyVal.bool false)
    Except.ok { s with uniform_rotation_slot := some v }

/-- `sample_rotation` getter (source lines 151-154): returns `self.__uniform_rotation`. -/
def get_sample_rotation (s : GAPDState) : Except PyError PyVal :=
  getAttr s.uniform_rotation_slot urAttrName

/-- `uniform_rotation` getter (source lines 193-196): returns `self.__uniform_rotation`. -/
def get_uniform_rotation (s : GAPDState) : Except PyError PyVal :=
  getAttr s.uniform_rotation_slot urAttrName

/-- `rotation_quaternion` getter (source lines 167-170): its body is
`return self.rotation_quaternion`, which re-invokes the property getter itself (the
class property shadows the name-mangled instance attribute).  Embedded with explicit
fuel: each step consumes one unit and makes the same call again; exhausted fuel is the
`RecursionError` / non-termination outcome, `Option.none`. -/
def get_rotation_quaternion : Nat → GAPDState → Option PyVal
  | 0, _ => Option.none
  | n + 1, s => get_rotation_quaternion n s

/-- `rotation_quaternion.setter` (source lines 172-191): `None` clears; otherwise reads
`self.__sample_rotation` (never written anywhere, hence `AttributeError`), requires it
equal `True`, then clears a non-`None` `__uniform_rotation` with a warning, then stores
the `(list, tuple)`-checked value. -/
def set_rotation_quaternion (s : GAPDState) (value : PyVal) : Except PyError GAPDState :=
  if value = PyVal.none then
    Except.ok { s with rotation_quaternion_slot := some PyVal.none }
  else do
    let sr ← getAttr s.sample_rotation_slot srAttrName
    if pyEqTrue sr = false then
      Except.error (PyError.valueError rqGateMsg)
    else do
      let ur ← getAttr s.uniform_rotation_slot urAttrName
      let s2 :=
        if ur ≠ PyVal.none then
          { s with warnings := s.warnings ++ [rqOverrideWarn],
                   uniform_rotation_slot := some PyVal.none }
        else s
      let v ← checkAndSetInstance [PyType.list, PyType.tuple] value PyVal.none
      Except.ok { s2 with rotation_quaternion_slot := some v }

/-- `uniform_rotation.setter` (source lines 198-216): `None` clears; otherwise reads
`self.__sample_rotation` (never written anywhere, hence `AttributeError`), requires it
equal `True`, then clears a non-`None` `__rotation_quaternion` with a warning, then
stores the `bool`-checked value. -/
def set_uniform_rotation (s : GAPDState) (value : PyVal) : Except PyError GAPDState :=
  if value = PyVal.none then
    Except.ok { s with uniform_rotation_slot := some PyVal.none }
  else do
    let sr ← getAttr s.sample_rotation_slot srAttrName
    if pyEqTrue sr = false then
      Except.error (PyError.valueError urGateMsg)
    else do
      let rq ← getAttr s.rotation_quaternion_slot rqAttrName
      let s2 :=
        if rq ≠ PyVal.none then
          { s with warnings := s.warnings ++ [urOverrideWarn],
                   rotation_quaternion_slot := some PyVal.none }
        else s
      let v ← checkAndSetInstance [PyType.bool] value PyVal.none
      Except.ok { s2 with uniform_rotation_slot := some v }

/-- `calculate_Compton.setter` (source lines 223-228). -/
def set_calculate_Compton (s : GAPDState) (value : PyVal) : Except PyError GAPDState := do
  let v ← checkAndSetInstance [PyType.bool] value (PyVal.bool false)
  Except.ok { s with calculate_Compton := some v }

/-- Python `x > 0` for values that passed an `isinstance(int, ...)` check (a `bool`
compares as its integer value). -/
def pyGtZero : PyVal → Bool
  | PyVal.int n => 0 < n
  | PyVal.bool b => b
  | _ => false

/-- Python `x >= 0` for values that passed an `isinstance(int, ...)` check. -/
def pyGeZero : PyVal → Bool
  | PyVal.int n => 0 ≤ n
  | PyVal.bool _ => true
  | _ => false

/-- `number_of_slices.setter` (source lines 235-246): default `1`, requires `> 0` or a
`ValueError` (whose message, as in the source, names `slice_interval`). -/
def set_number_of_slices (s : GAPDState) (value : PyVal) : Except PyError GAPDState := do
  let v ← checkAndSetInstance [PyType.int] value (PyVal.int 1)
  if pyGtZero v then Except.ok { s with number_of_slices := some v }
  else Except.error (PyError.valueError sliceIntervalMsg)

/-- `slice_interval.setter` (source lines 253-264): default `100`, requires `> 0`. -/
def set_slice_interval (s : GAPDState) (value : PyVal) : Except PyError GAPDState := do
  let v ← checkAndSetInstance [PyType.int] value (PyVal.int 100)
  if pyGtZero v then Except.ok { s with slice_interval := some v }
  else Except.error (PyError.valueError sliceIntervalMsg)

/-- `pmi_start_ID.setter` (source lines 271-281): default `1`, requires `>= 0`. -/
def set_pmi_start_ID (s : GAPDState) (value : PyVal) : Except PyError GAPDState := do
  let v ← checkAndSetInstance [PyType.int] value (PyVal.int 1)
  if pyGeZero v then Except.ok { s with pmi_start_ID := some v }
  else Except.error (PyError.valueError pmiStartMsg)

/-- `pmi_stop_ID.setter` (source lines 288-298): default `1`, requires `>= 0`. -/
def set_pmi_stop_ID (s : GAPDState) (value : PyVal) : Except PyError GAPDState := do
  let v ← checkAndSetInstance [PyType.int] value (PyVal.int 1)
  if pyGeZero v then Except.ok { s with pmi_stop_ID := some v }
  else Except.error (PyError.valueError pmiStopMsg)

/-- `beam_parameters.setter` (source lines 305-321): type-check against
`(str, PhotonBeamParameters)`; a string that is not an existing file raises `IOError`;
a string that is an existing file still raises `TypeError` (file-based beam parameters
are an explicitly unsupported feature); any other outcome is stored.  `fs` is the set
of existing files (the result of `os.path.isfile`). -/
def set_beam_parameters (fs : List String) (s : GAPDState) (value : PyVal) :
    Except PyError GAPDState := do
  let v ← checkAndSetInstance [PyType.str, PyType.photonBeamParameters] value PyVal.none
  match v with
  | PyVal.str p =>
    if fs.contains p = false then Except.error (PyError.ioError (beamNotFileMsg p))
    else Except.error (PyError.typeError beamUnsupportedMsg)
  | _ => Except.ok { s with beam_parameters := some v }

/-- `detector_geometry.setter` (source lines 328-351): `None` prints a warning and is
stored; a string must name an existing file (else `IOError`) and is resolved into a
`DetectorGeometry` object (an opaque collaborator whose loader the spec treats as
external and succeeding); an already-built object is stored as-is. -/
def set_detector_geometry (fs : List String) (s : GAPDState) (value : PyVal) :
    Except PyError GAPDState :=
  if value = PyVal.none then
    Except.ok { s with warnings := s.warnings ++ [geometryWarn],
                       detector_geometry := some PyVal.none }
  else do
    let v ← checkAndSetInstance [PyType.str, PyType.detectorGeometry] value PyVal.none
    match v with
    | PyVal.str p =>
      if fs.contains p = false then Except.error (PyError.ioError (geometryNotFileMsg p))
      else Except.ok { s with detector_geometry := some (PyVal.detectorGeometry (some p)) }
    | _ => Except.ok { s with detector_geometry := some v }

/-- `number_of_diffraction_patterns.setter` (source lines 358-370): default `1`,
requires `> 0`. -/
def set_number_of_diffraction_patterns (s : GAPDState) (value : PyVal) :
    Except PyError GAPDState := do
  let v ← checkAndSetInstance [PyType.int] value (PyVal.int 1)
  if pyGtZero v then Except.ok { s with number_of_diffraction_patterns := some v }
  else Except.error (PyError.valueError ndpMsg)

/-- The keyword arguments of `GAPDPhotonDiffractorParameters.__init__` (source lines
37-52).  `sample_rotation`, `rotation_quaternion` and `number_of_MPI_processes` are
accepted by the signature but never assigned by the constructor body, exactly as in the
source. -/
structure ConstructArgs where
  sample : PyVal
  sample_rotation : PyVal
  rotation_quaternion : PyVal
  uniform_rotation : PyVal
  calculate_Compton : PyVal
  slice_interval : PyVal
  number_of_slices : PyVal
  pmi_start_ID : PyVal
  pmi_stop_ID : PyVal
  number_of_diffraction_patterns : PyVal
  beam_parameters : PyVal
  detector_geometry : PyVal
  number_of_MPI_processes : PyVal
  parameters_dictionary : Option (List (String × PyVal))
deriving DecidableEq, Repr

/-- All-defaults call: every keyword argument is `None`, no legacy dictionary. -/
def defaultArgs : ConstructArgs :=
  { sample := PyVal.none
    sample_rotation := PyVal.none
    rotation_quaternion := PyVal.none
    uniform_rotation := PyVal.none
    calculate_Compton := PyVal.none
    slice_interval := PyVal.none
    number_of_slices := PyVal.none
    pmi_start_ID := PyVal.none
    pmi_stop_ID := PyVal.none
    number_of_diffraction_patterns := PyVal.none
    beam_parameters := PyVal.none
    detector_geometry := PyVal.none
    number_of_MPI_processes := PyVal.none
    parameters_dictionary := Option.none }

/-- Python dictionary subscript `d[k]`: a missing key raises `KeyError`. -/
def dictGet (d : List (String × PyVal)) (k : String) : Except PyError PyVal :=
  match d.find? (fun kv => kv.fst = k) with
  | some kv => Except.ok kv.snd
  | Option.none => Except.error (PyError.keyError k)

/-- The legacy-dictionary branch of `__init__` (source lines 102-113), assignments in
source order: `sample = None`, then `uniform_rotation`, `calculate_Compton`,
`slice_interval`, `number_of_slices`, `pmi_start_ID`, `pmi_stop_ID`, `beam_parameters`,
`detector_geometry`, `number_of_diffraction_patterns` from the dictionary. -/
def constructFromDict (fs : List String) (d : List (String × PyVal)) :
    Except PyError GAPDState := do
  let s ← set_sample initState PyVal.none
  let v ← dictGet d "uniform_rotation"
  let s ← set_uniform_rotation s v
  let v ← dictGet d "calculate_Compton"
  let s ← set_calculate_Compton s v
  let v ← dictGet d "slice_interval"
  let s ← set_slice_interval s v
  let v ← dictGet d "number_of_slices"
  let s ← set_number_of_slices s v
  let v ← dictGet d "pmi_start_ID"
  let s ← set_pmi_start_ID s v
  let v ← dictGet d "pmi_stop_ID"
  let s ← set_pmi_stop_ID s v
  let v ← dictGet d "beam_parameters"
  let s ← set_beam_parameters fs s v
  let v ← dictGet d "detector_geometry"
  let s ← set_detector_geometry fs s v
  let v ← dictGet d "number_of_diffraction_patterns"
  let s ← set_number_of_diffraction_patterns s v
  Except.ok s

/-- The keyword branch of `__init__` (source lines 115-126), assignments in source
order.  Note that the `sample_rotation` and `rotation_quaternion` arguments are never
assigned, exactly as in the source. -/
def constructFromKwargs (fs : List String) (a : ConstructArgs) :
    Except PyError GAPDState := do
  let s ← set_sample initState a.sample
  let s ← set_uniform_rotation s a.uniform_rotation
  let s ← set_calculate_Compton s a.calculate_Compton
  let s ← set_slice_interval s a.slice_interval
  let s ← set_number_of_slices s a.number_of_slices
  let s ← set_pmi_start_ID s a.pmi_start_ID
  let s ← set_pmi_stop_ID s a.pmi_stop_ID
  let s ← set_beam_parameters fs s a.beam_parameters
  let s ← set_detector_geometry fs s a.detector_geometry
  let s ← set_number_of_diffraction_patterns s a.number_of_diffraction_patterns
  Except.ok s

/-- `GAPDPhotonDiffractorParameters.__init__` (source lines 101-129): the legacy
branch when a `parameters_dictionary` is given, the keyword branch otherwise.  The
final `super().__init__(**kwargs)` call belongs to the base class, which the spec
places out of scope (generic plumbing); it is modelled as a no-op success. -/
def construct (fs : List String) (a : ConstructArgs) : Except PyError GAPDState :=
  match a.parameters_dictionary with
  | some d => constructFromDict fs d
  | Option.none => constructFromKwargs fs a

/-!
Part 2: the Esther experiment construction.  `EstherExperimentConstruction` and
`EstherPhotonMatterInteractorParameters` are code of this repository that is not under
the sources here — only their unit test
(src/Tests/python/unittest/SimExTest/Calculators/EstherExperimentConstructionTest.py)
is.  The definitions below are therefore modelled from the spec (sections 4.2c, 4.3, 6
and 8), with the test fixing the concrete names involved.
-/

/-- Modelled from the spec: the field set of `EstherPhotonMatterInteractorParameters`
(not under the sources here), taken from the constructor call in the unit test.  A
field holding `Option.none` means the field was not supplied; when the same record is
used as a set of keyword overrides, `Option.none` means "no override for this field". -/
structure EstherParams where
  number_of_layers : Option Int
  ablator : Option String
  ablator_thickness : Option Rat
  sample : Option String
  sample_thickness : Option Rat
  window : Option String
  window_thickness : Option Rat
  laser_wavelength : Option Rat
  laser_pulse : Option String
  laser_pulse_duration : Option Rat
  laser_intensity : Option Rat
  run_time : Option Rat
  delta_time : Option Rat
deriving DecidableEq, Repr

/-- A supplied keyword overrides the corresponding snapshot field; an absent keyword
keeps it. -/
def overrideField {α : Type} (override base : Option α) : Option α :=
  match override with
  | some v => some v
  | Option.none => base

/-- Modelled from the spec (section 4.2c): re-hydrating from a snapshot applies the
keyword overrides supplied alongside the snapshot, field by field. -/
def applyOverrides (base overrides : EstherParams) : EstherParams :=
  { number_of_layers := overrideField overrides.number_of_layers base.number_of_layers
    ablator := overrideField overrides.ablator base.ablator
    ablator_thickness := overrideField overrides.ablator_thickness base.ablator_thickness
    sample := overrideField overrides.sample base.sample
    sample_thickness := overrideField overrides.sample_thickness base.sample_thickness
    window := overrideField overrides.window base.window
    window_thickness := overrideField overrides.window_thickness base.window_thickness
    laser_wavelength := overrideField overrides.laser_wavelength base.laser_wavelength
    laser_pulse := overrideField overrides.laser_pulse base.laser_pulse
    laser_pulse_duration :=
      overrideField overrides.laser_pulse_duration base.laser_pulse_duration
    laser_intensity := overrideField overrides.laser_intensity base.laser_intensity
    run_time := overrideField overrides.run_time base.run_time
    delta_time := overrideField overrides.delta_time base.delta_time }

/-- An override record supplying nothing. -/
def noOverrides : EstherParams :=
  { number_of_layers := Option.none
    ablator := Option.none
    ablator_thickness := Option.none
    sample := Option.none
    sample_thickness := Option.none
    window := Option.none
    window_thickness := Option.none
    laser_wavelength := Option.none
    laser_pulse := Option.none
    laser_pulse_duration := Option.none
    laser_intensity := Option.none
    run_time := Option.none
    delta_time := Option.none }

/-- One allocated version directory `<root>/<experiment_name>/<version>`: its name, the
files written inside it, and the persisted parameter snapshot (`parameters.json`). -/
structure VersionDir where
  name : String
  files : List String
  snapshot : EstherParams
deriving DecidableEq, Repr

/-- The contents of the experiment directory `<root>/<experiment_name>`. -/
structure ExperimentDir where
  subdirs : List VersionDir
deriving DecidableEq, Repr

/-- A freshly created (empty) experiment directory. -/
def emptyDir : ExperimentDir := { subdirs := [] }

/-- Decimal-digit accumulator: `Option.none` unless every character is a digit. -/
def parseNatAux : List Char → Nat → Option Nat
  | [], acc => some acc
  | c :: cs, acc =>
    if c.isDigit then parseNatAux cs (acc * 10 + (c.toNat - 48)) else Option.none

/-- Does this subdirectory name parse as a positive integer?  (Non-empty, all digits,
value strictly positive.) -/
def parsePosInt (s : String) : Option Nat :=
  match s.data with
  | [] => Option.none
  | c :: cs =>
    match parseNatAux (c :: cs) 0 with
    | some n => if 0 < n then some n else Option.none
    | Option.none => Option.none

/-- Modelled from the spec (section 4.3 step 2): among the immediate subdirectories
whose names parse as positive integers, take the maximum (0 if none exist) and add 1. -/
def nextVersion (names : List String) : Nat :=
  (names.filterMap parsePosInt).foldl max 0 + 1

/-- Modelled from the spec (sections 4.3 step 5 and 9): the file-extension family is
selected by the pulse duration crossing a threshold; the test observes `.dat` at
duration `1.0` and `.txt` at duration `6.0`, so the threshold is taken as `5`. -/
def estherExt (p : EstherParams) : String :=
  if p.laser_pulse_duration.getD 0 ≤ 5 then ".dat" else ".txt"

/-- Modelled from the spec (sections 4.3 steps 4-5 and 6): the files written into a
version directory — the primary input file `<name><version><ext>`, the companion
`<name><version>_intensite_impulsion<ext>`, and the snapshot `parameters.json`. -/
def estherInputFiles (p : EstherParams) (name : String) (v : Nat) : List String :=
  [name ++ toString v ++ estherExt p,
   name ++ toString v ++ "_intensite_impulsion" ++ estherExt p,
   "parameters.json"]

/-- Modelled from the spec (section 4.3): `EstherExperimentConstruction` — allocate the
next free integer version under the experiment directory, create that version
directory, and write the snapshot and the derived input files into it.  Returns the
allocated version and the updated experiment directory. -/
def estherConstruct (p : EstherParams) (d : ExperimentDir) (name : String) :
    Nat × ExperimentDir :=
  let v := nextVersion (d.subdirs.map VersionDir.name)
  (v, { subdirs := d.subdirs ++ [{ name := toString v
                                   files := estherInputFiles p name v
                                   snapshot := p }] })

/-- Reading the persisted snapshot of a named version directory, if that directory
exists. -/
def readFromDir (d : ExperimentDir) (dirName : String) : Option EstherParams :=
  (d.subdirs.find? (fun vd => vd.name == dirName)).map VersionDir.snapshot

/-- Modelled from the spec (section 4.2c): the `read_from_file` initializer —
re-hydrate the parameters from the named prior version's persisted snapshot, then
apply the keyword overrides supplied alongside it. -/
def read_from_file (d : ExperimentDir) (dirName : String) (overrides : EstherParams) :
    Option EstherParams :=
  (readFromDir d dirName).map (fun base => applyOverrides base overrides)

/-- The concrete parameter set built in the unit test `testComplexWorkflow`. -/
def testParams : EstherParams :=
  { number_of_layers := some 2
    ablator := some "CH"
    ablator_thickness := some 25
    sample := some "Iron"
    sample_thickness := some 5
    window := Option.none
    window_thickness := some 0
    laser_wavelength := some 1064
    laser_pulse := some "flat"
    laser_pulse_duration := some 1
    laser_intensity := some (1 / 10)
    run_time := some 10
    delta_time := some (1 / 20) }

/-- The override record of the test's third construction: `sample_thickness=4.0`. -/
def thicknessOverride : EstherParams :=
  { noOverrides with sample_thickness := some 4 }

/-! ## Claim theorems -/

/-- Reaching the state of claim C3's hypothesis: a default construction followed by
`sample_rotation = True` (which, in the source, stores `True` into
`__uniform_rotation`, so that both `sample_rotation` and `uniform_rotation` read as
`True`). -/
def conflictStart : Except PyError GAPDState :=
  Except.bind (construct [] defaultArgs) (fun s => set_sample_rotation s (PyVal.bool true))

/-- C3: the claim says that on an object with `sample_rotation` true and
`uniform_rotation` non-`None`, setting `rotation_quaternion` to a non-`None` value
succeeds with a warning and clears `uniform_rotation`.  The code instead raises a hard
`AttributeError`: the rotation setters read `__sample_rotation`, an attribute no code
path ever writes (the `sample_rotation` setter writes `__uniform_rotation` instead).
This theorem evaluates the code at the failing input: after default construction and
`sample_rotation = True`, both gating reads return `True`, yet
`rotation_quaternion = [...]` raises `AttributeError` on `__sample_rotation`. -/
theorem rotation_conflict_hard_error :
    Except.map get_sample_rotation conflictStart = Except.ok (Except.ok (PyVal.bool true))
    ∧ Except.map get_uniform_rotation conflictStart = Except.ok (Except.ok (PyVal.bool true))
    ∧ Except.bind conflictStart (fun s => set_rotation_quaternion s PyVal.list)
        = Except.error (PyError.attributeError srAttrName) := by
  exact ⟨rfl, rfl, rfl⟩

/-- Construction arguments supplying only a non-`None` `rotation_quaternion`. -/
def rqOnlyArgs : ConstructArgs := { defaultArgs with rotation_quaternion := PyVal.list }

/-- Construction arguments supplying only a non-`None` `uniform_rotation`. -/
def urOnlyArgs : ConstructArgs := { defaultArgs with uniform_rotation := PyVal.bool true }

/-- C4: the claim says that constructing with `sample_rotation` false/unset and any
non-`None` rotation field fails.  The constructor body never assigns its
`rotation_quaternion` argument, so construction with a non-`None` `rotation_quaternion`
succeeds and the value is silently dropped (no `__rotation_quaternion` attribute is
created); only the `uniform_rotation` path fails, and it does so with an
`AttributeError` on the never-written `__sample_rotation` attribute. -/
theorem rotation_gate_ignored_argument :
    (∃ s, construct [] rqOnlyArgs = Except.ok s)
    ∧ Except.map (fun s => s.rotation_quaternion_slot) (construct [] rqOnlyArgs)
        = Except.ok Option.none
    ∧ construct [] urOnlyArgs = Except.error (PyError.attributeError srAttrName) := by
  refine ⟨⟨_, rfl⟩, rfl, rfl⟩

/-- A legacy dictionary holding every key the legacy branch reads except
`calculate_Compton`, with a non-`None` `uniform_rotation` value. -/
def legacyNoComptonRotating : List (String × PyVal) :=
  [("uniform_rotation", PyVal.bool true), ("slice_interval", PyVal.int 100),
   ("number_of_slices", PyVal.int 1), ("pmi_start_ID", PyVal.int 1),
   ("pmi_stop_ID", PyVal.int 1), ("beam_parameters", PyVal.none),
   ("detector_geometry", PyVal.none), ("number_of_diffraction_patterns", PyVal.int 1)]

/-- The same dictionary with `uniform_rotation` mapped to `None`. -/
def legacyNoComptonStill : List (String × PyVal) :=
  [("uniform_rotation", PyVal.none), ("slice_interval", PyVal.int 100),
   ("number_of_slices", PyVal.int 1), ("pmi_start_ID", PyVal.int 1),
   ("pmi_stop_ID", PyVal.int 1), ("beam_parameters", PyVal.none),
   ("detector_geometry", PyVal.none), ("number_of_diffraction_patterns", PyVal.int 1)]

/-- C5: the claim says legacy-mapping construction missing `calculate_Compton` fails
with a missing-key condition.  With `uniform_rotation` mapped to `None` it does
(`KeyError` on `calculate_Compton`, second conjunct), but with a non-`None`
`uniform_rotation` value the construction dies earlier with an `AttributeError` on the
never-written `__sample_rotation` attribute, before the missing key is ever looked up
(first conjunct) — the missing-key condition is pre-empted by the rotation-gate slip. -/
theorem legacy_missing_key_preempted :
    constructFromDict [] legacyNoComptonRotating
      = Except.error (PyError.attributeError srAttrName)
    ∧ constructFromDict [] legacyNoComptonStill
      = Except.error (PyError.keyError "calculate_Compton") := by
  exact ⟨rfl, rfl⟩

/-- C6: count fields reject out-of-bound integers at set-time with a range error and
never clamp: `number_of_slices` stores a positive integer unchanged and raises
`ValueError` on any non-positive integer (so `0` fails), `number_of_slices = None`
stores the default `1`, and `slice_interval` behaves the same way (so `-5` fails). -/
theorem count_fields_range (s : GAPDState) (n : Int) :
    set_number_of_slices s (PyVal.int n)
      = (if 0 < n then Except.ok { s with number_of_slices := some (PyVal.int n) }
         else Except.error (PyError.valueError sliceIntervalMsg))
    ∧ set_number_of_slices s PyVal.none
      = Except.ok { s with number_of_slices := some (PyVal.int 1) }
    ∧ set_slice_interval s (PyVal.int n)
      = (if 0 < n then Except.ok { s with slice_interval := some (PyVal.int n) }
         else Except.error (PyError.valueError sliceIntervalMsg)) := by
  refine ⟨?_, rfl, ?_⟩ <;>
    simp only [set_number_of_slices, set_slice_interval, checkAndSetInstance,
      isInstance, pyGtZero] <;>
    by_cases h : 0 < n <;>
    simp [h, Bind.bind, Except.bind]

/-- C10: the `rotation_quaternion` getter's body is `return self.rotation_quaternion`,
which re-invokes the property getter itself; however much fuel the recursion is given,
no value is ever returned. -/
theorem rotation_quaternion_getter_diverges (fuel : Nat) (s : GAPDState) :
    get_rotation_quaternion fuel s = Option.none := by
  induction fuel with
  | zero => rfl
  | succ n ih => exact ih

/-- C7 counterexample: the claim says every path-valued field rejects a string that
does not name an existing file.  The `sample` setter performs no existence check at
all (it takes no file-system argument because the source consults none — it only
type-checks against `str`), so assigning an arbitrary string such as
`"no_such_file.xyz"` succeeds and the string is stored. -/
theorem sample_path_unchecked :
    set_sample initState (PyVal.str "no_such_file.xyz")
      = Except.ok { initState with sample := some (PyVal.str "no_such_file.xyz") } := by
  exact rfl

/-- C7 amended: assigning a string that does not name an existing file to
`detector_geometry` or to `beam_parameters` fails with an `IOError` naming the path,
while the `sample` setter only type-checks and stores any string without an existence
check. -/
theorem path_fields_amended (fs : List String) (s : GAPDState) (p : String)
    (h : fs.contains p = false) :
    set_detector_geometry fs s (PyVal.str p)
      = Except.error (PyError.ioError (geometryNotFileMsg p))
    ∧ set_beam_parameters fs s (PyVal.str p)
      = Except.error (PyError.ioError (beamNotFileMsg p))
    ∧ set_sample s (PyVal.str p)
      = Except.ok { s with sample := some (PyVal.str p) } := by
  have hmem : p ∉ fs := by simpa using h
  refine ⟨?_, ?_, rfl⟩ <;>
    simp [set_detector_geometry, set_beam_parameters, checkAndSetInstance, isInstance,
      Bind.bind, Except.bind, hmem]

/-- Witness for the amended C7 at a concrete input: no file exists and the path is
`"missing.geom"`. -/
theorem path_fields_amended_witness :
    set_detector_geometry [] initState (PyVal.str "missing.geom")
      = Except.error (PyError.ioError (geometryNotFileMsg "missing.geom"))
    ∧ set_beam_parameters [] initState (PyVal.str "missing.geom")
      = Except.error (PyError.ioError (beamNotFileMsg "missing.geom"))
    ∧ set_sample initState (PyVal.str "missing.geom")
      = Except.ok { initState with sample := some (PyVal.str "missing.geom") } :=
  path_fields_amended [] initState "missing.geom" rfl

/-- C8: every string assigned to `beam_parameters` fails — with an `IOError` naming the
path when the file does not exist, and with a `TypeError` (feature explicitly disabled)
when it does — and whenever the setter succeeds, the stored value is either `None` or
the opaque `PhotonBeamParameters` object, never a string. -/
theorem beam_parameters_string_always_fails (fs : List String) (s s2 : GAPDState)
    (p : String) (v : PyVal)
    (hok : set_beam_parameters fs s v = Except.ok s2) :
    set_beam_parameters fs s (PyVal.str p)
      = Except.error (if fs.contains p = true then PyError.typeError beamUnsupportedMsg
          else PyError.ioError (beamNotFileMsg p))
    ∧ (s2.beam_parameters = some PyVal.none
       ∨ s2.beam_parameters = some PyVal.photonBeamParameters) := by
  constructor
  · by_cases h : p ∈ fs <;>
      simp [set_beam_parameters, checkAndSetInstance, isInstance, Bind.bind,
        Except.bind, h]
  · cases v with
    | none =>
        simp [set_beam_parameters, checkAndSetInstance, isInstance, Bind.bind,
          Except.bind] at hok
        simp [← hok]
    | bool b =>
        simp [set_beam_parameters, checkAndSetInstance, isInstance, Bind.bind,
          Except.bind] at hok
    | int n =>
        simp [set_beam_parameters, checkAndSetInstance, isInstance, Bind.bind,
          Except.bind] at hok
    | str q =>
        have hc : checkAndSetInstance [PyType.str, PyType.photonBeamParameters]
            (PyVal.str q) PyVal.none = Except.ok (PyVal.str q) := rfl
        simp only [set_beam_parameters, Bind.bind, hc, Except.bind] at hok
        split at hok <;> simp at hok
    | list =>
        simp [set_beam_parameters, checkAndSetInstance, isInstance, Bind.bind,
          Except.bind] at hok
    | tuple =>
        simp [set_beam_parameters, checkAndSetInstance, isInstance, Bind.bind,
          Except.bind] at hok
    | detectorGeometry f =>
        simp [set_beam_parameters, checkAndSetInstance, isInstance, Bind.bind,
          Except.bind] at hok
    | photonBeamParameters =>
        simp [set_beam_parameters, checkAndSetInstance, isInstance, Bind.bind,
          Except.bind] at hok
        simp [← hok]

/-- Witness for C8 at a concrete input: no file exists, the path is `"beam.h5"`, and
the successful set stores `None`. -/
theorem beam_parameters_string_always_fails_witness :
    set_beam_parameters [] initState (PyVal.str "beam.h5")
      = Except.error (if List.contains [] "beam.h5" = true
          then PyError.typeError beamUnsupportedMsg
          else PyError.ioError (beamNotFileMsg "beam.h5"))
    ∧ (({ initState with beam_parameters := some PyVal.none } : GAPDState).beam_parameters
          = some PyVal.none
       ∨ ({ initState with beam_parameters := some PyVal.none } : GAPDState).beam_parameters
          = some PyVal.photonBeamParameters) :=
  beam_parameters_string_always_fails [] initState
    { initState with beam_parameters := some PyVal.none } "beam.h5" PyVal.none rfl

/-- `Bind.bind` on `Except` is `Except.bind`. -/
theorem bind_eq_except_bind {α β : Type} (x : Except PyError α) (f : α → Except PyError β) :
    Bind.bind x f = Except.bind x f := rfl

/-- A successful `Except.bind` factors through a successful first step. -/
theorem bind_ok_elim {α β : Type} {x : Except PyError α} {f : α → Except PyError β}
    {b : β} (h : Except.bind x f = Except.ok b) :
    ∃ a, x = Except.ok a ∧ f a = Except.ok b := by
  cases x with
  | error e => exact Except.noConfusion h
  | ok a => exact ⟨a, rfl, h⟩

/-- `set_sample` never touches the `__sample_rotation` slot. -/
theorem slot_set_sample {s t : GAPDState} {v : PyVal} (h : set_sample s v = Except.ok t) :
    t.sample_rotation_slot = s.sample_rotation_slot := by
  simp only [set_sample, bind_eq_except_bind] at h
  split at h
  · injection h with h2; subst h2; rfl
  · obtain ⟨v1, hv1, h⟩ := bind_ok_elim h
    injection h with h2; subst h2; rfl

/-- `set_sample_rotation` never touches the `__sample_rotation` slot (it writes
`__uniform_rotation`). -/
theorem slot_set_sample_rotation {s t : GAPDState} {v : PyVal}
    (h : set_sample_rotation s v = Except.ok t) :
    t.sample_rotation_slot = s.sample_rotation_slot := by
  simp only [set_sample_rotation, bind_eq_except_bind] at h
  split at h
  · injection h with h2; subst h2; rfl
  · obtain ⟨v1, hv1, h⟩ := bind_ok_elim h
    injection h with h2; subst h2; rfl

/-- `set_rotation_quaternion` never touches the `__sample_rotation` slot. -/
theorem slot_set_rotation_quaternion {s t : GAPDState} {v : PyVal}
    (h : set_rotation_quaternion s v = Except.ok t) :
    t.sample_rotation_slot = s.sample_rotation_slot := by
  simp only [set_rotation_quaternion, bind_eq_except_bind] at h
  split at h
  · injection h with h2; subst h2; rfl
  · obtain ⟨sr, hsr, h⟩ := bind_ok_elim h
    split at h
    · exact Except.noConfusion h
    · obtain ⟨ur, hur, h⟩ := bind_ok_elim h
      obtain ⟨v1, hv1, h⟩ := bind_ok_elim h
      injection h with h2; subst h2
      split <;> rfl

/-- `set_uniform_rotation` never touches the `__sample_rotation` slot. -/
theorem slot_set_uniform_rotation {s t : GAPDState} {v : PyVal}
    (h : set_uniform_rotation s v = Except.ok t) :
    t.sample_rotation_slot = s.sample_rotation_slot := by
  simp only [set_uniform_rotation, bind_eq_except_bind] at h
  split at h
  · injection h with h2; subst h2; rfl
  · obtain ⟨sr, hsr, h⟩ := bind_ok_elim h
    split at h
    · exact Except.noConfusion h
    · obtain ⟨rq, hrq, h⟩ := bind_ok_elim h
      obtain ⟨v1, hv1, h⟩ := bind_ok_elim h
      injection h with h2; subst h2
      split <;> rfl

/-- `set_calculate_Compton` never touches the `__sample_rotation` slot. -/
theorem slot_set_calculate_Compton {s t : GAPDState} {v : PyVal}
    (h : set_calculate_Compton s v = Except.ok t) :
    t.sample_rotation_slot = s.sample_rotation_slot := by
  simp only [set_calculate_Compton, bind_eq_except_bind] at h
  obtain ⟨v1, hv1, h⟩ := bind_ok_elim h
  injection h with h2; subst h2; rfl

/-- `set_number_of_slices` never touches the `__sample_rotation` slot. -/
theorem slot_set_number_of_slices {s t : GAPDState} {v : PyVal}
    (h : set_number_of_slices s v = Except.ok t) :
    t.sample_rotation_slot = s.sample_rotation_slot := by
  simp only [set_number_of_slices, bind_eq_except_bind] at h
  obtain ⟨v1, hv1, h⟩ := bind_ok_elim h
  split at h
  · injection h with h2; subst h2; rfl
  · exact Except.noConfusion h

/-- `set_slice_interval` never touches the `__sample_rotation` slot. -/
theorem slot_set_slice_interval {s t : GAPDState} {v : PyVal}
    (h : set_slice_interval s v = Except.ok t) :
    t.sample_rotation_slot = s.sample_rotation_slot := by
  simp only [set_slice_interval, bind_eq_except_bind] at h
  obtain ⟨v1, hv1, h⟩ := bind_ok_elim h
  split at h
  · injection h with h2; subst h2; rfl
  · exact Except.noConfusion h

/-- `set_pmi_start_ID` never touches the `__sample_rotation` slot. -/
theorem slot_set_pmi_start_ID {s t : GAPDState} {v : PyVal}
    (h : set_pmi_start_ID s v = Except.ok t) :
    t.sample_rotation_slot = s.sample_rotation_slot := by
  simp only [set_pmi_start_ID, bind_eq_except_bind] at h
  obtain ⟨v1, hv1, h⟩ := bind_ok_elim h
  split at h
  · injection h with h2; subst h2; rfl
  · exact Except.noConfusion h

/-- `set_pmi_stop_ID` never touches the `__sample_rotation` slot. -/
theorem slot_set_pmi_stop_ID {s t : GAPDState} {v : PyVal}
    (h : set_pmi_stop_ID s v = Except.ok t) :
    t.sample_rotation_slot = s.sample_rotation_slot := by
  simp only [set_pmi_stop_ID, bind_eq_except_bind] at h
  obtain ⟨v1, hv1, h⟩ := bind_ok_elim h
  split at h
  · injection h with h2; subst h2; rfl
  · exact Except.noConfusion h

/-- `set_beam_parameters` never touches the `__sample_rotation` slot. -/
theorem slot_set_beam_parameters {fs : List String} {s t : GAPDState} {v : PyVal}
    (h : set_beam_parameters fs s v = Except.ok t) :
    t.sample_rotation_slot = s.sample_rotation_slot := by
  simp only [set_beam_parameters, bind_eq_except_bind] at h
  obtain ⟨v1, hv1, h⟩ := bind_ok_elim h
  split at h
  · split at h <;> exact Except.noConfusion h
  · injection h with h2; subst h2; rfl

/-- `set_detector_geometry` never touches the `__sample_rotation` slot. -/
theorem slot_set_detector_geometry {fs : List String} {s t : GAPDState} {v : PyVal}
    (h : set_detector_geometry fs s v = Except.ok t) :
    t.sample_rotation_slot = s.sample_rotation_slot := by
  simp only [set_detector_geometry, bind_eq_except_bind] at h
  split at h
  · injection h with h2; subst h2; rfl
  · obtain ⟨v1, hv1, h⟩ := bind_ok_elim h
    split at h
    · split at h
      · exact Except.noConfusion h
      · injection h with h2; subst h2; rfl
    · injection h with h2; subst h2; rfl

/-- `set_number_of_diffraction_patterns` never touches the `__sample_rotation` slot. -/
theorem slot_set_number_of_diffraction_patterns {s t : GAPDState} {v : PyVal}
    (h : set_number_of_diffraction_patterns s v = Except.ok t) :
    t.sample_rotation_slot = s.sample_rotation_slot := by
  simp only [set_number_of_diffraction_patterns, bind_eq_except_bind] at h
  obtain ⟨v1, hv1, h⟩ := bind_ok_elim h
  split at h
  · injection h with h2; subst h2; rfl
  · exact Except.noConfusion h

/-- The keyword constructor leaves the `__sample_rotation` attribute missing. -/
theorem slot_constructFromKwargs {fs : List String} {a : ConstructArgs} {t : GAPDState}
    (h : constructFromKwargs fs a = Except.ok t) :
    t.sample_rotation_slot = Option.none := by
  simp only [constructFromKwargs, bind_eq_except_bind] at h
  obtain ⟨s1, h1, h⟩ := bind_ok_elim h
  obtain ⟨s2, h2, h⟩ := bind_ok_elim h
  obtain ⟨s3, h3, h⟩ := bind_ok_elim h
  obtain ⟨s4, h4, h⟩ := bind_ok_elim h
  obtain ⟨s5, h5, h⟩ := bind_ok_elim h
  obtain ⟨s6, h6, h⟩ := bind_ok_elim h
  obtain ⟨s7, h7, h⟩ := bind_ok_elim h
  obtain ⟨s8, h8, h⟩ := bind_ok_elim h
  obtain ⟨s9, h9, h⟩ := bind_ok_elim h
  obtain ⟨s10, h10, h⟩ := bind_ok_elim h
  injection h with h2; subst h2
  rw [slot_set_number_of_diffraction_patterns h10, slot_set_detector_geometry h9,
    slot_set_beam_parameters h8, slot_set_pmi_stop_ID h7, slot_set_pmi_start_ID h6,
    slot_set_number_of_slices h5, slot_set_slice_interval h4,
    slot_set_calculate_Compton h3, slot_set_uniform_rotation h2, slot_set_sample h1]
  rfl

/-- The legacy-dictionary constructor leaves the `__sample_rotation` attribute
missing. -/
theorem slot_constructFromDict {fs : List String} {d : List (String × PyVal)}
    {t : GAPDState} (h : constructFromDict fs d = Except.ok t) :
    t.sample_rotation_slot = Option.none := by
  simp only [constructFromDict, bind_eq_except_bind] at h
  obtain ⟨s1, h1, h⟩ := bind_ok_elim h
  obtain ⟨v2, hv2, h⟩ := bind_ok_elim h
  obtain ⟨s2, h2, h⟩ := bind_ok_elim h
  obtain ⟨v3, hv3, h⟩ := bind_ok_elim h
  obtain ⟨s3, h3, h⟩ := bind_ok_elim h
  obtain ⟨v4, hv4, h⟩ := bind_ok_elim h
  obtain ⟨s4, h4, h⟩ := bind_ok_elim h
  obtain ⟨v5, hv5, h⟩ := bind_ok_elim h
  obtain ⟨s5, h5, h⟩ := bind_ok_elim h
  obtain ⟨v6, hv6, h⟩ := bind_ok_elim h
  obtain ⟨s6, h6, h⟩ := bind_ok_elim h
  obtain ⟨v7, hv7, h⟩ := bind_ok_elim h
  obtain ⟨s7, h7, h⟩ := bind_ok_elim h
  obtain ⟨v8, hv8, h⟩ := bind_ok_elim h
  obtain ⟨s8, h8, h⟩ := bind_ok_elim h
  obtain ⟨v9, hv9, h⟩ := bind_ok_elim h
  obtain ⟨s9, h9, h⟩ := bind_ok_elim h
  obtain ⟨v10, hv10, h⟩ := bind_ok_elim h
  obtain ⟨s10, h10, h⟩ := bind_ok_elim h
  injection h with h2; subst h2
  rw [slot_set_number_of_diffraction_patterns h10, slot_set_detector_geometry h9,
    slot_set_beam_parameters h8, slot_set_pmi_stop_ID h7, slot_set_pmi_start_ID h6,
    slot_set_number_of_slices h5, slot_set_slice_interval h4,
    slot_set_calculate_Compton h3, slot_set_uniform_rotation h2, slot_set_sample h1]
  rfl

/-- Any successful construction leaves the `__sample_rotation` attribute missing. -/
theorem slot_construct {fs : List String} {a : ConstructArgs} {t : GAPDState}
    (h : construct fs a = Except.ok t) :
    t.sample_rotation_slot = Option.none := by
  unfold construct at h
  cases hd : a.parameters_dictionary with
  | none => rw [hd] at h; exact slot_constructFromKwargs h
  | some d => rw [hd] at h; exact slot_constructFromDict h

/-- C9: the `sample_rotation` and `uniform_rotation` properties read and write the
same underlying storage slot (`__uniform_rotation`): the two getters agree on every
state; after a successful assignment to `sample_rotation` (a boolean or `None`),
reading `uniform_rotation` returns the value just assigned; after the successful
assignment `uniform_rotation = None`, reading `sample_rotation` returns it; and no
separate `__sample_rotation` value is ever stored — neither by these setters nor by
any successful construction. -/
theorem sample_rotation_uniform_rotation_alias (fs : List String) (a : ConstructArgs)
    (s s0 s1 s2 s3 : GAPDState) (b : Bool)
    (h0 : construct fs a = Except.ok s0)
    (h1 : set_sample_rotation s (PyVal.bool b) = Except.ok s1)
    (h2 : set_sample_rotation s PyVal.none = Except.ok s2)
    (h3 : set_uniform_rotation s PyVal.none = Except.ok s3) :
    get_sample_rotation s = get_uniform_rotation s
    ∧ get_uniform_rotation s1 = Except.ok (PyVal.bool b)
    ∧ get_uniform_rotation s2 = Except.ok PyVal.none
    ∧ get_sample_rotation s3 = Except.ok PyVal.none
    ∧ s1.sample_rotation_slot = s.sample_rotation_slot
    ∧ s2.sample_rotation_slot = s.sample_rotation_slot
    ∧ s3.sample_rotation_slot = s.sample_rotation_slot
    ∧ s0.sample_rotation_slot = Option.none := by
  have e1 : (Except.ok { s with uniform_rotation_slot := some (PyVal.bool b) } :
      Except PyError GAPDState) = Except.ok s1 := by rw [← h1]; rfl
  have e2 : (Except.ok { s with uniform_rotation_slot := some PyVal.none } :
      Except PyError GAPDState) = Except.ok s2 := by rw [← h2]; rfl
  have e3 : (Except.ok { s with uniform_rotation_slot := some PyVal.none } :
      Except PyError GAPDState) = Except.ok s3 := by rw [← h3]; rfl
  injection e1 with e1
  injection e2 with e2
  injection e3 with e3
  subst e1; subst e2; subst e3
  exact ⟨rfl, rfl, rfl, rfl, rfl, rfl, rfl, slot_construct h0⟩

/-- The state produced by an all-defaults construction. -/
def defaultConstructed : GAPDState :=
  { sample := some PyVal.none
    sample_rotation_slot := Option.none
    rotation_quaternion_slot := Option.none
    uniform_rotation_slot := some PyVal.none
    calculate_Compton := some (PyVal.bool false)
    number_of_slices := some (PyVal.int 1)
    slice_interval := some (PyVal.int 100)
    pmi_start_ID := some (PyVal.int 1)
    pmi_stop_ID := some (PyVal.int 1)
    beam_parameters := some PyVal.none
    detector_geometry := some PyVal.none
    number_of_diffraction_patterns := some (PyVal.int 1)
    warnings := [geometryWarn] }

/-- Witness for C9 at concrete inputs: the all-defaults construction and assignments
on the fresh state. -/
theorem sample_rotation_uniform_rotation_alias_witness :
    get_sample_rotation initState = get_uniform_rotation initState
    ∧ get_uniform_rotation
        { initState with uniform_rotation_slot := some (PyVal.bool true) }
        = Except.ok (PyVal.bool true)
    ∧ get_uniform_rotation { initState with uniform_rotation_slot := some PyVal.none }
        = Except.ok PyVal.none
    ∧ get_sample_rotation { initState with uniform_rotation_slot := some PyVal.none }
        = Except.ok PyVal.none
    ∧ ({ initState with uniform_rotation_slot := some (PyVal.bool true) } :
        GAPDState).sample_rotation_slot = initState.sample_rotation_slot
    ∧ ({ initState with uniform_rotation_slot := some PyVal.none } :
        GAPDState).sample_rotation_slot = initState.sample_rotation_slot
    ∧ ({ initState with uniform_rotation_slot := some PyVal.none } :
        GAPDState).sample_rotation_slot = initState.sample_rotation_slot
    ∧ defaultConstructed.sample_rotation_slot = Option.none :=
  sample_rotation_uniform_rotation_alias [] defaultArgs initState defaultConstructed
    { initState with uniform_rotation_slot := some (PyVal.bool true) }
    { initState with uniform_rotation_slot := some PyVal.none }
    { initState with uniform_rotation_slot := some PyVal.none }
    true rfl rfl rfl rfl

/-- C2: a construct call allocates one plus the maximum positive-integer-named
immediate subdirectory (1 when none exist) — stated generally in the first conjunct —
and concretely: against an empty workspace with experiment name `"HPLF-Fe"` the
resulting version is `1`, and the version directory `1` holds the primary input file
`HPLF-Fe1.dat`, the companion `HPLF-Fe1_intensite_impulsion.dat` and the parameter
snapshot `parameters.json`; repeating the identical call against the now-populated
workspace yields version `2`, not `1`. -/
theorem esther_version_allocation (d : ExperimentDir) (p : EstherParams) (name : String) :
    (estherConstruct p d name).fst
      = ((d.subdirs.map VersionDir.name).filterMap parsePosInt).foldl max 0 + 1
    ∧ (estherConstruct testParams emptyDir "HPLF-Fe").fst = 1
    ∧ (estherConstruct testParams emptyDir "HPLF-Fe").snd.subdirs
      = [{ name := "1"
           files := ["HPLF-Fe1.dat", "HPLF-Fe1_intensite_impulsion.dat", "parameters.json"]
           snapshot := testParams }]
    ∧ (estherConstruct testParams
        (estherConstruct testParams emptyDir "HPLF-Fe").snd "HPLF-Fe").fst = 2 := by
  exact ⟨rfl, rfl, rfl, rfl⟩

/-- C1: constructing new parameters from version `2`'s persisted snapshot with the
override `sample_thickness=4.0` and versioning again yields version `3`, whose
persisted snapshot has `sample_thickness = 4.0` while every other field equals the
corresponding field of version `2`'s snapshot `S`.  The hypotheses say the workspace
holds version `2`'s snapshot `S` and that the next free version is `3`. -/
theorem esther_resume_override (d : ExperimentDir) (S : EstherParams)
    (h2 : readFromDir d "2" = some S)
    (h3 : nextVersion (d.subdirs.map VersionDir.name) = 3) :
    read_from_file d "2" thicknessOverride = some (applyOverrides S thicknessOverride)
    ∧ (applyOverrides S thicknessOverride).sample_thickness = some 4
    ∧ (applyOverrides S thicknessOverride).number_of_layers = S.number_of_layers
    ∧ (applyOverrides S thicknessOverride).ablator = S.ablator
    ∧ (applyOverrides S thicknessOverride).ablator_thickness = S.ablator_thickness
    ∧ (applyOverrides S thicknessOverride).sample = S.sample
    ∧ (applyOverrides S thicknessOverride).window = S.window
    ∧ (applyOverrides S thicknessOverride).window_thickness = S.window_thickness
    ∧ (applyOverrides S thicknessOverride).laser_wavelength = S.laser_wavelength
    ∧ (applyOverrides S thicknessOverride).laser_pulse = S.laser_pulse
    ∧ (applyOverrides S thicknessOverride).laser_pulse_duration = S.laser_pulse_duration
    ∧ (applyOverrides S thicknessOverride).laser_intensity = S.laser_intensity
    ∧ (applyOverrides S thicknessOverride).run_time = S.run_time
    ∧ (applyOverrides S thicknessOverride).delta_time = S.delta_time
    ∧ (estherConstruct (applyOverrides S thicknessOverride) d "HPLF-Fe").fst = 3
    ∧ (estherConstruct (applyOverrides S thicknessOverride) d "HPLF-Fe").snd.subdirs
      = d.subdirs
        ++ [{ name := "3"
              files := estherInputFiles (applyOverrides S thicknessOverride) "HPLF-Fe" 3
              snapshot := applyOverrides S thicknessOverride }] := by
  refine ⟨?_, rfl, rfl, rfl, rfl, rfl, rfl, rfl, rfl, rfl, rfl, rfl, rfl, rfl, ?_, ?_⟩
  · simp [read_from_file, h2]
  · simp [estherConstruct, h3]
  · simp only [estherConstruct, h3]
    rfl

/-- The workspace after the unit test's first two engine calls: versions `1` and `2`
both holding `testParams` as snapshot. -/
def twoVersionsDir : ExperimentDir :=
  (estherConstruct testParams (estherConstruct testParams emptyDir "HPLF-Fe").snd
    "HPLF-Fe").snd

/-- Witness for C1 at the unit test's concrete workspace: two existing versions with
snapshot `testParams`. -/
theorem esther_resume_override_witness :
    read_from_file twoVersionsDir "2" thicknessOverride
      = some (applyOverrides testParams thicknessOverride)
    ∧ (applyOverrides testParams thicknessOverride).sample_thickness = some 4
    ∧ (applyOverrides testParams thicknessOverride).number_of_layers
        = testParams.number_of_layers
    ∧ (applyOverrides testParams thicknessOverride).ablator = testParams.ablator
    ∧ (applyOverrides testParams thicknessOverride).ablator_thickness
        = testParams.ablator_thickness
    ∧ (applyOverrides testParams thicknessOverride).sample = testParams.sample
    ∧ (applyOverrides testParams thicknessOverride).window = testParams.window
    ∧ (applyOverrides testParams thicknessOverride).window_thickness
        = testParams.window_thickness
    ∧ (applyOverrides testParams thicknessOverride).laser_wavelength
        = testParams.laser_wavelength
    ∧ (applyOverrides testParams thicknessOverride).laser_pulse = testParams.laser_pulse
    ∧ (applyOverrides testParams thicknessOverride).laser_pulse_duration
        = testParams.laser_pulse_duration
    ∧ (applyOverrides testParams thicknessOverride).laser_intensity
        = testParams.laser_intensity
    ∧ (applyOverrides testParams thicknessOverride).run_time = testParams.run_time
    ∧ (applyOverrides testParams thicknessOverride).delta_time = testParams.delta_time
    ∧ (estherConstruct (applyOverrides testParams thicknessOverride) twoVersionsDir
        "HPLF-Fe").fst = 3
    ∧ (estherConstruct (applyOverrides testParams thicknessOverride) twoVersionsDir
        "HPLF-Fe").snd.subdirs
      = twoVersionsDir.subdirs
        ++ [{ name := "3"
              files := estherInputFiles (applyOverrides testParams thicknessOverride)
                "HPLF-Fe" 3
              snapshot := applyOverrides testParams thicknessOverride }] :=
  esther_resume_override twoVersionsDir testParams rfl rfl

end SimexSpec
